import Mathlib

/-!
Shallow embedding of the BugZero GitHub code-search client
(`src/bugzero/types.py`, `src/bugzero/github.py`) and proofs about it.

JSON values are modelled exactly (integers as `Int`, other JSON numbers as
`Rat`); time instants and sleep durations are rationals.  Python exceptions
raised by the client are the constructors of `ReqError`; out-of-protocol
Python crashes (`AttributeError` / `TypeError` on response payloads of an
unexpected shape) are modelled by `Option` failure.
-/

namespace BugZero

/-- JSON values, as Python's `json` module materialises them
(`dict` → `obj` with string keys, `list` → `arr`, integral numbers → `int`,
other numbers → `num`, modelled exactly as rationals). -/
inductive Json where
  | null : Json
  | bool : Bool → Json
  | int : Int → Json
  | num : Rat → Json
  | str : String → Json
  | arr : List Json → Json
  | obj : List (String × Json) → Json

/-- Python truthiness (`bool(v)`) of a JSON value. -/
def Json.truthy : Json → Bool
  | .null => false
  | .bool b => b
  | .int n => n != 0
  | .num q => q != 0
  | .str s => !s.isEmpty
  | .arr xs => !xs.isEmpty
  | .obj fs => !fs.isEmpty

/-- The field list of a JSON object; `none` on any other shape
(where Python's `dict.get` would raise `AttributeError`). -/
def Json.asObj : Json → Option (List (String × Json))
  | .obj fs => some fs
  | _ => none

/-! ### `types.py`: the query model -/

/-- The whitespace class used by Python's argument-less `str.split` and
`str.strip` (ASCII part; the queries at hand contain no exotic Unicode
spaces). -/
def pyIsSpace (c : Char) : Bool :=
  c == ' ' || c == '\t' || c == '\n' || c == '\r' || c == '\x0b' || c == '\x0c'

/-- Worker for `pySplitWs`: `cur` holds the characters of the word in
progress, reversed. -/
def splitWsAux : List Char → List Char → List String
  | [], cur => if cur.isEmpty then [] else [String.mk cur.reverse]
  | c :: rest, cur =>
    if pyIsSpace c then
      if cur.isEmpty then splitWsAux rest []
      else String.mk cur.reverse :: splitWsAux rest []
    else splitWsAux rest (c :: cur)

/-- Python `s.split()`: split on runs of whitespace, discarding empty
pieces. -/
def pySplitWs (s : String) : List String :=
  splitWsAux s.toList []

/-- Python `sep.join(parts)`. -/
def pyJoin (sep : String) : List String → String
  | [] => ""
  | [x] => x
  | x :: xs => x ++ sep ++ pyJoin sep xs

/-- Python `s.strip()`: drop leading and trailing whitespace. -/
def pyStrip (s : String) : String :=
  String.mk (((s.toList.dropWhile pyIsSpace).reverse.dropWhile pyIsSpace).reverse)

/-- Structure `QuerySpec` from `types.py`: free text plus ordered key/value
qualifiers. -/
structure QuerySpec where
  query : String
  qualifiers : List (String × String)

/-- One iteration of the qualifier loop in `QuerySpec.build`: strip key and
value, skip an empty key, render `key:value`, or bare `key` when the
stripped value is empty. -/
def renderQualifier (kv : String × String) : Option String :=
  let q := pyStrip kv.1
  let v := pyStrip kv.2
  if q.isEmpty then none
  else some (if v.isEmpty then q else q ++ ":" ++ v)

/-- Method `QuerySpec.build` from `types.py`. -/
def QuerySpec.build (s : QuerySpec) : String :=
  let queryText := pyJoin " " (pySplitWs s.query)
  let parts : List String :=
    (if queryText.isEmpty then [] else [queryText])
      ++ s.qualifiers.filterMap renderQualifier
  pyJoin " " parts

/-- Method `QuerySpec.build` with the receiver threaded explicitly, as the method
runs in Python: the pair holds the return value and the receiver's state
when the call returns.  The source assigns only to the locals `parts`,
`query_text`, `qualifier`, `value` and `token`, never to `self`, so the
final state is the initial one. -/
def QuerySpec.buildSt (s : QuerySpec) : String × QuerySpec :=
  (s.build, s)

/-! ### `github.py`: responses and response predicates -/

/-- One HTTP response as the client observes it: status code, response
headers, raw body text, and `response.json()` (`none` when the body is not
valid JSON, where `.json()` raises `ValueError`).  Header lookup is by the
exact key the source uses; the requests library is case-insensitive but the
source reads each header under a single spelling. -/
structure HttpResponse where
  status : Nat
  headers : List (String × String)
  body : String
  jsonBody : Option Json

/-- Python `needle in hay` on character lists. -/
def listContains (needle : List Char) : List Char → Bool
  | [] => needle.isEmpty
  | c :: rest => needle.isPrefixOf (c :: rest) || listContains needle rest

/-- Predicate `_is_rate_limited` from `github.py`: the body contains the
case-insensitive substring "rate limit", or the `X-RateLimit-Remaining`
header equals "0" (an absent header compares unequal, as Python's
`None == "0"` is false). -/
def isRateLimited (r : HttpResponse) : Bool :=
  if listContains "rate limit".toList (r.body.toList.map Char.toLower) then
    true
  else
    r.headers.lookup "X-RateLimit-Remaining" == some "0"

/-- Accumulate the value of a decimal digit string; `none` on any
non-digit. -/
def digitsToNatAux : List Char → Nat → Option Nat
  | [], acc => some acc
  | c :: rest, acc =>
    if c.isDigit then digitsToNatAux rest (acc * 10 + (c.toNat - 48))
    else none

/-- Python `int(s)` on a string: surrounding whitespace, an optional sign,
then one or more decimal digits; `none` models `ValueError`.  (Underscore
digit grouping and non-ASCII digits are outside the modelled domain.) -/
def parsePyInt (s : String) : Option Int :=
  let cs := ((s.toList.dropWhile pyIsSpace).reverse.dropWhile pyIsSpace).reverse
  match cs with
  | [] => none
  | '+' :: rest =>
    if rest.isEmpty then none else (digitsToNatAux rest 0).map Int.ofNat
  | '-' :: rest =>
    if rest.isEmpty then none else (digitsToNatAux rest 0).map (fun n => -(n : Int))
  | rest => (digitsToNatAux rest 0).map Int.ofNat

/-- Python `max(a, b)`: the second argument only when it is strictly
larger. -/
def pyMax (a b : Rat) : Rat := if a < b then b else a

/-- Python `min(a, b)`: the second argument only when it is strictly
smaller. -/
def pyMin (a b : Rat) : Rat := if b < a then b else a

/-- Function `_retry_after` from `github.py`, with the current time `now`
(`time.time()`) passed in explicitly.  A present, truthy (non-empty)
`X-RateLimit-Reset` header that parses as an integer gives
`max(reset_time - now, 1)`; otherwise the exponential fallback
`min(2 ** attempt, 60.0)` with the 1-based attempt number. -/
def retryAfter (r : HttpResponse) (attempt : Nat) (now : Rat) : Rat :=
  match r.headers.lookup "X-RateLimit-Reset" with
  | some v =>
    if v.toList.isEmpty then pyMin ((2 : Rat) ^ attempt) 60
    else
      match parsePyInt v with
      | some n => pyMax ((n : Rat) - now) 1
      | none => pyMin ((2 : Rat) ^ attempt) 60
  | none => pyMin ((2 : Rat) ^ attempt) 60

/-- Python `str()` of a JSON scalar, as an f-string renders it.  The claims
only exercise string messages; container and float reprs are outside the
modelled domain. -/
def Json.pyStr : Json → String
  | .null => "None"
  | .bool true => "True"
  | .bool false => "False"
  | .int n => toString n
  | .num q => toString q
  | .str s => s
  | .arr _ => ""
  | .obj _ => ""

/-- Function `_extract_error_message` from `github.py`: the JSON body's `message`
field when the body parses as a JSON object (falling back to the raw text
when the field is missing, via `payload.get("message", response.text)`),
the raw text when the body is not JSON (`ValueError` caught); `none` models
the uncaught `AttributeError` when the body parses as non-object JSON. -/
def extractErrorMessage (r : HttpResponse) : Option String :=
  match r.jsonBody with
  | some (.obj fs) =>
    match fs.lookup "message" with
    | some v => some v.pyStr
    | none => some r.body
  | some _ => none
  | none => some r.body

/-! ### `github.py`: the retry-wrapped request primitive -/

/-- Exceptions the request path can raise.  The first three are the
`GitHubAPIError`s of `github.py`; `decodeError` is the `ValueError` from
`response.json()` on a 200 response whose body is not JSON; `pyError`
stands for an uncaught `AttributeError`/`TypeError` on a payload of an
unexpected shape. -/
inductive ReqError where
  | unauthorized : ReqError
  | apiError : Nat → String → ReqError
  | retryLimitExceeded : ReqError
  | decodeError : ReqError
  | pyError : ReqError
  deriving Repr, DecidableEq

/-- The exact message string carried by each `GitHubAPIError`. -/
def ReqError.render : ReqError → String
  | .unauthorized => "GitHub rejected the token (401 Unauthorized)"
  | .apiError status message =>
    "GitHub API error " ++ toString status ++ ": " ++ message
  | .retryLimitExceeded => "Retry limit exceeded while calling GitHub API"
  | .decodeError => "JSONDecodeError"
  | .pyError => "AttributeError"

/-- Observable side effects of one `_request_with_retry` call: how many
HTTP GETs were issued and which sleep durations were requested, in
order. -/
structure ReqTrace where
  calls : Nat
  sleeps : List Rat
  deriving Repr, DecidableEq

def MAX_RETRIES : Nat := 3

/-- The attempt loop of `_request_with_retry`.  `env attempt` is the
response the server gives to the HTTP GET of that (1-based) attempt;
`now attempt` is `time.time()` during that attempt's backoff computation.
The first argument list holds the remaining attempt numbers. -/
def requestAttempts (env : Nat → HttpResponse) (now : Nat → Rat) :
    List Nat → Nat → List Rat → (Except ReqError Json) × ReqTrace
  | [], calls, sleeps => (.error .retryLimitExceeded, ⟨calls, sleeps⟩)
  | attempt :: rest, calls, sleeps =>
    let r := env attempt
    if r.status == 200 then
      match r.jsonBody with
      | some j => (.ok j, ⟨calls + 1, sleeps⟩)
      | none => (.error .decodeError, ⟨calls + 1, sleeps⟩)
    else if r.status == 403 && isRateLimited r then
      requestAttempts env now rest (calls + 1)
        (sleeps ++ [retryAfter r attempt (now attempt)])
    else if r.status == 401 then
      (.error .unauthorized, ⟨calls + 1, sleeps⟩)
    else
      match extractErrorMessage r with
      | some m => (.error (.apiError r.status m), ⟨calls + 1, sleeps⟩)
      | none => (.error .pyError, ⟨calls + 1, sleeps⟩)

/-- Function `_request_with_retry` from `github.py`: `for attempt in
range(1, MAX_RETRIES + 1)`, falling through to the retry-exhausted error. -/
def requestWithRetry (env : Nat → HttpResponse) (now : Nat → Rat) :
    (Except ReqError Json) × ReqTrace :=
  requestAttempts env now ((List.range MAX_RETRIES).map (· + 1)) 0 []

/-! ### `github.py`: item parsing -/

/-- Structure `SearchResult` from `types.py`.  Fields hold whatever JSON value the
parser stored (Python dataclasses do not coerce); `snippet` is `none` for
Python `None`. -/
structure SearchResult where
  repository : Json
  path : Json
  url : Json
  score : Json
  snippet : Option Json

/-- The body of the loop in `_parse_items` for one raw item; `none` models
an uncaught Python exception (`.get` on a non-dict, subscripting a
non-list).  Mirrors:
`repo = item.get("repository", {})`,
`text_matches = item.get("text_matches") or []`,
`snippet = text_matches[0].get("fragment") if text_matches else None`,
then the `SearchResult(...)` construction with its defaults. -/
def parseItem (item : Json) : Option SearchResult := do
  let fields ← item.asObj
  let repo := (fields.lookup "repository").getD (Json.obj [])
  let repoFields ← repo.asObj
  let tm := match fields.lookup "text_matches" with
            | some v => if v.truthy then v else Json.arr []
            | none => Json.arr []
  let snippet ← (if tm.truthy then do
        let first ← (match tm with
                     | .arr (x :: _) => some x
                     | _ => none)
        let firstFields ← first.asObj
        pure (firstFields.lookup "fragment")
      else
        pure none)
  pure {
    repository := (repoFields.lookup "full_name").getD (Json.str "unknown/repo"),
    path := (fields.lookup "path").getD (Json.str ""),
    url := (fields.lookup "html_url").getD (Json.str ""),
    score :=
      (let sv := (fields.lookup "score").getD Json.null
       if sv.truthy then sv else Json.num 0),
    snippet := snippet }

/-- Function `_parse_items` from `github.py` over the already-iterated
elements: parse each item in order, appending to the accumulated list; an
uncaught exception (`none`) on any item aborts the whole call. -/
def parseItems : List Json → Option (List SearchResult)
  | [] => some []
  | item :: rest => do
    let r ← parseItem item
    let rs ← parseItems rest
    pure (r :: rs)

/-! ### `github.py`: the search client -/

def ACCEPT_TEXT_MATCH : String := "application/vnd.github.v3.text-match+json"

/-- The session headers installed by `GitHubSearchClient.__init__` via
`self.session.headers.update({...})`. -/
def sessionHeaders (token userAgent : String) : List (String × String) :=
  [("Authorization", "token " ++ token),
   ("Accept", ACCEPT_TEXT_MATCH),
   ("User-Agent", userAgent)]

/-- How the requests library merges per-request headers over session
headers for one `session.get(..., headers=extra)`: a per-request entry
overrides the session entry of the same key; session entries without a
per-request override survive.  (The source never passes a `None` value, so
header deletion is not modelled.) -/
def effectiveHeaders (session extra : List (String × String)) :
    List (String × String) :=
  extra ++ session.filter (fun kv => (extra.lookup kv.1).isNone)

/-- The observable content of one page-level GET issued by `search_code`:
its `q`, `per_page` and `page` parameters and the effective headers it
carries. -/
structure PageRequest where
  q : String
  perPage : Int
  page : Int
  headers : List (String × String)

/-- Observable side effects of one `search_code` call: the page-level
requests in order, the total number of HTTP GETs (retries included), and
all sleeps. -/
structure SearchTrace where
  requests : List PageRequest
  httpCalls : Nat
  sleeps : List Rat

/-- Python `range(a, b)` as a list. -/
def pythonRange (a b : Int) : List Int :=
  (List.range (b - a).toNat).map (fun i => a + (i : Int))

/-- Python iteration `for x in v` over a JSON value: lists yield their
elements, dicts their keys, strings their characters; `none` models
`TypeError: not iterable`. -/
def pyIter : Json → Option (List Json)
  | .arr l => some l
  | .obj fs => some (fs.map (fun kv => Json.str kv.1))
  | .str s => some (s.toList.map (fun c => Json.str (String.mk [c])))
  | _ => none

/-- Python `len(v)` of a JSON value; `none` models `TypeError`. -/
def pyLen : Json → Option Nat
  | .arr l => some l.length
  | .obj fs => some fs.length
  | .str s => some s.length
  | _ => none

/-- The page loop of `GitHubSearchClient.search_code`.  `env page attempt`
is the response to the HTTP GET of the given attempt for the given page;
`now page attempt` is the clock during that attempt's backoff.  The first
list argument holds the remaining page numbers; `acc` the results
accumulated so far; `tr` the trace so far.  An error return carries no
results: the Python exception propagates out of `search_code` and the
local `results` list is discarded. -/
def searchCodeLoop (session : List (String × String)) (q : String)
    (perPage : Int) (extra : List (String × String))
    (env : Int → Nat → HttpResponse) (now : Int → Nat → Rat) :
    List Int → List SearchResult → SearchTrace →
    (Except ReqError (List SearchResult)) × SearchTrace
  | [], acc, tr => (.ok acc, tr)
  | page :: rest, acc, tr =>
    let reqHeaders := effectiveHeaders session extra
    let (res, rtr) := requestWithRetry (env page) (now page)
    let tr : SearchTrace :=
      { requests := tr.requests ++ [⟨q, perPage, page, reqHeaders⟩],
        httpCalls := tr.httpCalls + rtr.calls,
        sleeps := tr.sleeps ++ rtr.sleeps }
    match res with
    | .error e => (.error e, tr)
    | .ok payload =>
      match payload.asObj with
      | none => (.error .pyError, tr)
      | some fields =>
        let items := (fields.lookup "items").getD (Json.arr [])
        match pyIter items with
        | none => (.error .pyError, tr)
        | some elems =>
          match parseItems elems with
          | none => (.error .pyError, tr)
          | some rs =>
            match pyLen items with
            | none => (.error .pyError, tr)
            | some len =>
              if (len : Int) < perPage then (.ok (acc ++ rs), tr)
              else searchCodeLoop session q perPage extra env now rest
                (acc ++ rs) tr

/-- Function `GitHubSearchClient.search_code` from `github.py`: build the
per-request header dict (`{"Accept": ...}` when `text_matches`, else empty),
then fetch pages `range(1, pages + 1)`, accumulating parsed items and
stopping early on a short page. -/
def searchCode (token userAgent : String) (spec : QuerySpec)
    (perPage pages : Int) (textMatches : Bool)
    (env : Int → Nat → HttpResponse) (now : Int → Nat → Rat) :
    (Except ReqError (List SearchResult)) × SearchTrace :=
  let extra : List (String × String) :=
    if textMatches then [("Accept", ACCEPT_TEXT_MATCH)] else []
  searchCodeLoop (sessionHeaders token userAgent) spec.build perPage extra
    env now (pythonRange 1 (pages + 1)) [] ⟨[], 0, []⟩

/-- Reference pagination function following C3's wording, for comparison
with the page loop translated from the source: fetch the given pages in
order, append each page's raw items, and stop after the first page whose
item count is strictly below `perPage`.  Returns the accumulated items and
the list of pages requested. -/
def specFetchPages (itemsOf : Int → List Json) (perPage : Int) :
    List Int → List Json × List Int
  | [] => ([], [])
  | p :: rest =>
    if ((itemsOf p).length : Int) < perPage then (itemsOf p, [p])
    else
      let r := specFetchPages itemsOf perPage rest
      (itemsOf p ++ r.1, p :: r.2)

/-! ### Claims about the query model -/

/-- C4: for every `QuerySpec`, `build()` returns the whitespace-normalized
query text (split on any whitespace, rejoined with single spaces, dropped
entirely if empty) followed by one rendered segment per qualifier in
supplied order, space-separated, where a qualifier whose key strips to
empty is omitted, a qualifier with an empty post-strip value renders as
bare `key` with no colon, and otherwise renders as `key:value`; in
particular building `QuerySpec("memory leak", [("language","go")])` gives
`"memory leak language:go"`. -/
theorem c4_build_format (s : QuerySpec) :
    s.build =
      pyJoin " "
        ((if (pyJoin " " (pySplitWs s.query)).isEmpty then []
          else [pyJoin " " (pySplitWs s.query)]) ++
          s.qualifiers.filterMap (fun kv =>
            if (pyStrip kv.1).isEmpty then none
            else some (if (pyStrip kv.2).isEmpty then pyStrip kv.1
                       else pyStrip kv.1 ++ ":" ++ pyStrip kv.2))) ∧
    QuerySpec.build ⟨"memory leak", [("language", "go")]⟩ =
      "memory leak language:go" :=
  ⟨rfl, by decide⟩

/-- C9: for every `QuerySpec`, `build()` is a pure function of the spec's
fields: the receiver is unchanged after the call (`query` and `qualifiers`
included), and calling it twice on the same instance yields identical
output. -/
theorem c9_build_pure_idempotent (s : QuerySpec) :
    QuerySpec.buildSt s = (QuerySpec.build s, s) ∧
    (QuerySpec.buildSt s).2.query = s.query ∧
    (QuerySpec.buildSt s).2.qualifiers = s.qualifiers ∧
    (QuerySpec.buildSt ((QuerySpec.buildSt s).2)).1 = (QuerySpec.buildSt s).1 :=
  ⟨rfl, rfl, rfl, rfl⟩

/-! ### Claims about the backoff policy -/

/-- C5: for every rate-limited response and 1-based attempt number, the
computed wait duration is `max(reset_timestamp - current_time, 1)` when the
`X-RateLimit-Reset` header is present and parses as an integer, and
otherwise (header absent or unparseable) is `min(2 ^ attempt, 60)`. -/
theorem c5_backoff_policy (r : HttpResponse) (attempt : Nat) (now : Rat) :
    (∀ v n, r.headers.lookup "X-RateLimit-Reset" = some v →
      parsePyInt v = some n →
      retryAfter r attempt now = pyMax ((n : Rat) - now) 1) ∧
    ((r.headers.lookup "X-RateLimit-Reset" = none ∨
      (∃ v, r.headers.lookup "X-RateLimit-Reset" = some v ∧ parsePyInt v = none)) →
      retryAfter r attempt now = pyMin ((2 : Rat) ^ attempt) 60) := by
  constructor
  · intro v n hv hn
    rcases hl : v.data with _ | ⟨c, cs⟩
    · exfalso
      simp [parsePyInt, String.toList, hl] at hn
    · simp [retryAfter, String.toList, hv, hl, hn]
  · rintro (h | ⟨v, hv, hpn⟩)
    · simp [retryAfter, h]
    · rcases hl : v.data with _ | ⟨c, cs⟩ <;>
        simp [retryAfter, String.toList, hv, hl, hpn]

theorem c5_backoff_policy_witness :
    (parsePyInt "1000" = some 1000 ∧
      retryAfter ⟨403, [("X-RateLimit-Reset", "1000")], "", none⟩ 1 900 =
        pyMax ((1000 : Rat) - 900) 1) ∧
    retryAfter ⟨403, [], "API rate limit exceeded", none⟩ 2 0 =
      pyMin ((2 : Rat) ^ 2) 60 :=
  ⟨⟨rfl, (c5_backoff_policy ⟨403, [("X-RateLimit-Reset", "1000")], "", none⟩
      1 900).1 "1000" 1000 rfl rfl⟩,
    (c5_backoff_policy ⟨403, [], "API rate limit exceeded", none⟩ 2 0).2
      (Or.inl rfl)⟩

/-! ### Claims about the retry-wrapped request primitive -/

/-- C1: two 403 responses satisfying the rate-limited condition followed by
a 200 response make the call return the parsed JSON body of the 200
response after exactly 2 sleeps (and 3 HTTP attempts); three consecutive
rate-limited 403 responses make the call raise "Retry limit exceeded while
calling GitHub API" after exactly 3 HTTP attempts, issuing no further HTTP
calls. -/
theorem c1_retry_sequences (env : Nat → HttpResponse) (now : Nat → Rat)
    (j : Json) :
    ((env 1).status = 403 → isRateLimited (env 1) = true →
      (env 2).status = 403 → isRateLimited (env 2) = true →
      (env 3).status = 200 → (env 3).jsonBody = some j →
      requestWithRetry env now =
        (.ok j,
          ⟨3, [retryAfter (env 1) 1 (now 1), retryAfter (env 2) 2 (now 2)]⟩)) ∧
    ((env 1).status = 403 → isRateLimited (env 1) = true →
      (env 2).status = 403 → isRateLimited (env 2) = true →
      (env 3).status = 403 → isRateLimited (env 3) = true →
      requestWithRetry env now =
        (.error .retryLimitExceeded,
          ⟨3, [retryAfter (env 1) 1 (now 1), retryAfter (env 2) 2 (now 2),
               retryAfter (env 3) 3 (now 3)]⟩) ∧
        ReqError.retryLimitExceeded.render =
          "Retry limit exceeded while calling GitHub API") := by
  constructor
  · intro hs1 hrl1 hs2 hrl2 hs3 hj
    show requestAttempts env now [1, 2, 3] 0 [] = _
    simp [requestAttempts, hs1, hrl1, hs2, hrl2, hs3, hj]
  · intro hs1 hrl1 hs2 hrl2 hs3 hrl3
    refine ⟨?_, rfl⟩
    show requestAttempts env now [1, 2, 3] 0 [] = _
    simp [requestAttempts, hs1, hrl1, hs2, hrl2, hs3, hrl3]

theorem c1_retry_sequences_witness :
    requestWithRetry
        (fun a => if a ≤ 2
          then ⟨403, [("X-RateLimit-Remaining", "0")], "", none⟩
          else ⟨200, [], "{}", some (Json.obj [])⟩)
        (fun _ => 0) =
      (.ok (Json.obj []), ⟨3, [2, 4]⟩) ∧
    requestWithRetry
        (fun _ => ⟨403, [("X-RateLimit-Remaining", "0")], "", none⟩)
        (fun _ => 0) =
      (.error .retryLimitExceeded, ⟨3, [2, 4, 8]⟩) :=
  ⟨(c1_retry_sequences _ _ (Json.obj [])).1 rfl rfl rfl rfl rfl rfl,
    ((c1_retry_sequences
        (fun _ => ⟨403, [("X-RateLimit-Remaining", "0")], "", none⟩)
        (fun _ => 0) (Json.obj [])).2 rfl rfl rfl rfl rfl rfl).1⟩

/-- C2: for every response observed by the retry loop with remaining
attempts `attempt :: rest`, `c` calls issued and `s` sleeps so far: a 401
response immediately raises exactly "GitHub rejected the token (401
Unauthorized)" with no retry and no further HTTP calls; a 403 response is
retried as rate-limited (the loop sleeps the backoff duration and goes on
to the remaining attempts) if and only if its body contains the
case-insensitive substring "rate limit" or its `X-RateLimit-Remaining`
header equals "0"; every other non-200 response immediately raises
"GitHub API error {status}: {message}", where message is the JSON body's
`message` field if the body parses as JSON, else the raw response text. -/
theorem c2_response_dispatch (env : Nat → HttpResponse) (now : Nat → Rat)
    (attempt : Nat) (rest : List Nat) (c : Nat) (s : List Rat)
    (r : HttpResponse) (hr : env attempt = r) :
    (r.status = 401 →
      requestAttempts env now (attempt :: rest) c s =
        (.error .unauthorized, ⟨c + 1, s⟩) ∧
      ReqError.unauthorized.render =
        "GitHub rejected the token (401 Unauthorized)") ∧
    (isRateLimited r =
      (listContains "rate limit".toList (r.body.toList.map Char.toLower) ||
        r.headers.lookup "X-RateLimit-Remaining" == some "0")) ∧
    (r.status = 403 →
      (isRateLimited r = true →
        requestAttempts env now (attempt :: rest) c s =
          requestAttempts env now rest (c + 1)
            (s ++ [retryAfter r attempt (now attempt)])) ∧
      (isRateLimited r = false → ∀ m, extractErrorMessage r = some m →
        requestAttempts env now (attempt :: rest) c s =
          (.error (.apiError 403 m), ⟨c + 1, s⟩))) ∧
    (r.status ≠ 200 → r.status ≠ 403 → r.status ≠ 401 →
      (∀ fs m, r.jsonBody = some (.obj fs) →
        fs.lookup "message" = some (Json.str m) →
        requestAttempts env now (attempt :: rest) c s =
          (.error (.apiError r.status m), ⟨c + 1, s⟩)) ∧
      (∀ fs, r.jsonBody = some (.obj fs) → fs.lookup "message" = none →
        requestAttempts env now (attempt :: rest) c s =
          (.error (.apiError r.status r.body), ⟨c + 1, s⟩)) ∧
      (r.jsonBody = none →
        requestAttempts env now (attempt :: rest) c s =
          (.error (.apiError r.status r.body), ⟨c + 1, s⟩)) ∧
      (∀ st m, ReqError.render (.apiError st m) =
        "GitHub API error " ++ toString st ++ ": " ++ m)) := by
  refine ⟨?_, ?_, ?_, ?_⟩
  · intro h401
    exact ⟨by simp [requestAttempts, hr, h401], rfl⟩
  · rw [isRateLimited]
    cases h : listContains "rate limit".toList (r.body.toList.map Char.toLower) <;>
      simp [h]
  · intro h403
    constructor
    · intro hRL
      simp [requestAttempts, hr, h403, hRL]
    · intro hRL m hm
      simp [requestAttempts, hr, h403, hRL, hm]
  · intro h200 h403 h401
    refine ⟨?_, ?_, ?_, fun _ _ => rfl⟩
    · intro fs m hjson hmsg
      simp [requestAttempts, hr, h200, h403, h401, extractErrorMessage, hjson,
        hmsg, Json.pyStr]
    · intro fs hjson hmsg
      simp [requestAttempts, hr, h200, h403, h401, extractErrorMessage, hjson,
        hmsg]
    · intro hjson
      simp [requestAttempts, hr, h200, h403, h401, extractErrorMessage, hjson]

theorem c2_response_dispatch_witness :
    (requestAttempts (fun _ => ⟨401, [], "bad", none⟩) (fun _ => 0)
        [1, 2, 3] 0 [] = (.error .unauthorized, ⟨1, []⟩) ∧
      ReqError.unauthorized.render =
        "GitHub rejected the token (401 Unauthorized)") ∧
    (requestAttempts (fun _ => ⟨403, [], "API rate limit exceeded", none⟩)
        (fun _ => 0) [1, 2, 3] 0 [] =
      requestAttempts (fun _ => ⟨403, [], "API rate limit exceeded", none⟩)
        (fun _ => 0) [2, 3] 1
        [retryAfter ⟨403, [], "API rate limit exceeded", none⟩ 1 0]) ∧
    (requestAttempts (fun _ => ⟨403, [], "forbidden", none⟩) (fun _ => 0)
        [1, 2, 3] 0 [] = (.error (.apiError 403 "forbidden"), ⟨1, []⟩)) ∧
    (requestAttempts
        (fun _ => ⟨422, [], "raw",
          some (Json.obj [("message", Json.str "Validation Failed")])⟩)
        (fun _ => 0) [1, 2, 3] 0 [] =
      (.error (.apiError 422 "Validation Failed"), ⟨1, []⟩)) ∧
    (requestAttempts (fun _ => ⟨500, [], "Server Error", none⟩) (fun _ => 0)
        [1, 2, 3] 0 [] =
      (.error (.apiError 500 "Server Error"), ⟨1, []⟩)) :=
  ⟨(c2_response_dispatch _ _ 1 [2, 3] 0 [] ⟨401, [], "bad", none⟩ rfl).1 rfl,
    ((c2_response_dispatch _ _ 1 [2, 3] 0 []
        ⟨403, [], "API rate limit exceeded", none⟩ rfl).2.2.1 rfl).1 rfl,
    ((c2_response_dispatch _ _ 1 [2, 3] 0 []
        ⟨403, [], "forbidden", none⟩ rfl).2.2.1 rfl).2 rfl "forbidden" rfl,
    ((c2_response_dispatch _ _ 1 [2, 3] 0 []
        ⟨422, [], "raw", some (Json.obj [("message", Json.str "Validation Failed")])⟩
        rfl).2.2.2 (by decide) (by decide) (by decide)).1
      [("message", Json.str "Validation Failed")] "Validation Failed" rfl rfl,
    ((c2_response_dispatch _ _ 1 [2, 3] 0 []
        ⟨500, [], "Server Error", none⟩ rfl).2.2.2
      (by decide) (by decide) (by decide)).2.2.1 rfl⟩

/-! ### Claims about the search client -/

/-- C8 (code evaluated at the failing input): with `text_matches = false`
the client passes an empty per-request header dict, but the session still
carries the text-match `Accept` header installed by `__init__`, and the
requests library's header merge keeps a session header that has no
per-request override — so the one GET issued here still carries
`Accept: application/vnd.github.v3.text-match+json`, contradicting the
claim that it does not. -/
theorem c8_accept_header_not_overridden :
    ((searchCode "tok" "BugZero/0.1" ⟨"memory leak", []⟩ 30 1 false
        (fun _ _ => ⟨200, [], "", some (Json.obj [("items", Json.arr [])])⟩)
        (fun _ _ => 0)).2.requests.map
      (fun req => req.headers.lookup "Accept")) =
      [some ACCEPT_TEXT_MATCH] := rfl

/-- Helper: an empty JSON array is falsy. -/
theorem truthy_arr_nil : (Json.arr []).truthy = false := rfl

/-- Helper: a non-empty JSON array is truthy. -/
theorem truthy_arr_cons (x : Json) (l : List Json) :
    (Json.arr (x :: l)).truthy = true := rfl

/-- C6: for every raw item object whose present `repository` field is an
object and whose present `text_matches` field is either falsy or a
non-empty array whose first entry is an object, parsing succeeds (never
fails on missing optional fields) and yields a `SearchResult` with
`repository` the nested `repository.full_name` or `"unknown/repo"` if
absent, `path` and `url` defaulting to the empty string, `score` the item's
score or `0.0` if absent or falsy, and `snippet` the `fragment` field of
the first entry of `text_matches` when that array is present and non-empty,
else absent. -/
theorem c6_item_parsing (fields : List (String × Json))
    (hRepo : fields.lookup "repository" = none ∨
      ∃ rfs, fields.lookup "repository" = some (Json.obj rfs))
    (hTm : fields.lookup "text_matches" = none ∨
      (∃ v, fields.lookup "text_matches" = some v ∧ v.truthy = false) ∨
      (∃ xfs l, fields.lookup "text_matches" =
        some (Json.arr (Json.obj xfs :: l)))) :
    ∃ res, parseItem (Json.obj fields) = some res ∧
      ((fields.lookup "repository" = none →
        res.repository = Json.str "unknown/repo") ∧
       (∀ rfs, fields.lookup "repository" = some (Json.obj rfs) →
        res.repository = (rfs.lookup "full_name").getD (Json.str "unknown/repo"))) ∧
      res.path = (fields.lookup "path").getD (Json.str "") ∧
      res.url = (fields.lookup "html_url").getD (Json.str "") ∧
      ((fields.lookup "score" = none → res.score = Json.num 0) ∧
       (∀ sv, fields.lookup "score" = some sv → sv.truthy = false →
        res.score = Json.num 0) ∧
       (∀ sv, fields.lookup "score" = some sv → sv.truthy = true →
        res.score = sv)) ∧
      ((fields.lookup "text_matches" = none → res.snippet = none) ∧
       (∀ v, fields.lookup "text_matches" = some v → v.truthy = false →
        res.snippet = none) ∧
       (∀ xfs l, fields.lookup "text_matches" =
          some (Json.arr (Json.obj xfs :: l)) →
        res.snippet = xfs.lookup "fragment")) := by
  have hscore : ∀ res : SearchResult,
      res.score = (let sv := (fields.lookup "score").getD Json.null
        if sv.truthy then sv else Json.num 0) →
      (fields.lookup "score" = none → res.score = Json.num 0) ∧
      (∀ sv, fields.lookup "score" = some sv → sv.truthy = false →
        res.score = Json.num 0) ∧
      (∀ sv, fields.lookup "score" = some sv → sv.truthy = true →
        res.score = sv) := by
    intro res h
    refine ⟨fun hs => ?_, fun sv hs hf => ?_, fun sv hs ht => ?_⟩
    · rw [h]; simp [hs, Json.truthy]
    · rw [h]; simp [hs, hf]
    · rw [h]; simp [hs, ht]
  rcases hRepo with hR | ⟨rfs, hR⟩ <;>
    rcases hTm with hT | ⟨v, hT, hvf⟩ | ⟨xfs, l, hT⟩
  · refine ⟨⟨Json.str "unknown/repo", (fields.lookup "path").getD (Json.str ""),
      (fields.lookup "html_url").getD (Json.str ""),
      (let sv := (fields.lookup "score").getD Json.null
       if sv.truthy then sv else Json.num 0), none⟩,
      by simp [parseItem, Json.asObj, hR, hT, truthy_arr_nil, truthy_arr_cons],
      ⟨fun _ => rfl, ?_⟩, rfl, rfl, hscore _ rfl, fun _ => rfl, ?_, ?_⟩
    · intro rfs h; simp [hR] at h
    · intro v h hf; simp [hT] at h
    · intro xfs l h; simp [hT] at h
  · refine ⟨⟨Json.str "unknown/repo", (fields.lookup "path").getD (Json.str ""),
      (fields.lookup "html_url").getD (Json.str ""),
      (let sv := (fields.lookup "score").getD Json.null
       if sv.truthy then sv else Json.num 0), none⟩,
      by simp [parseItem, Json.asObj, hR, hT, hvf, truthy_arr_nil,
        truthy_arr_cons],
      ⟨fun _ => rfl, ?_⟩, rfl, rfl, hscore _ rfl, ?_, fun _ _ _ => rfl, ?_⟩
    · intro rfs h; simp [hR] at h
    · intro h; simp [hT] at h
    · intro xfs l h
      rw [hT] at h
      injection h with h
      subst h
      simp [Json.truthy] at hvf
  · refine ⟨⟨Json.str "unknown/repo", (fields.lookup "path").getD (Json.str ""),
      (fields.lookup "html_url").getD (Json.str ""),
      (let sv := (fields.lookup "score").getD Json.null
       if sv.truthy then sv else Json.num 0), xfs.lookup "fragment"⟩,
      by simp [parseItem, Json.asObj, hR, hT, truthy_arr_nil, truthy_arr_cons],
      ⟨fun _ => rfl, ?_⟩, rfl, rfl, hscore _ rfl, ?_, ?_, ?_⟩
    · intro rfs h; simp [hR] at h
    · intro h; simp [hT] at h
    · intro v h hf
      rw [hT] at h
      injection h with h
      subst h
      simp [Json.truthy] at hf
    · intro xfs2 l2 h
      rw [hT] at h
      injection h with h
      injection h with h
      injection h with h hl
      injection h with h
      subst h
      rfl
  · refine ⟨⟨(rfs.lookup "full_name").getD (Json.str "unknown/repo"),
      (fields.lookup "path").getD (Json.str ""),
      (fields.lookup "html_url").getD (Json.str ""),
      (let sv := (fields.lookup "score").getD Json.null
       if sv.truthy then sv else Json.num 0), none⟩,
      by simp [parseItem, Json.asObj, hR, hT, truthy_arr_nil, truthy_arr_cons],
      ⟨?_, ?_⟩, rfl, rfl, hscore _ rfl, fun _ => rfl, ?_, ?_⟩
    · intro h; simp [hR] at h
    · intro rfs2 h
      rw [hR] at h
      injection h with h
      injection h with h
      subst h
      rfl
    · intro v h hf; simp [hT] at h
    · intro xfs l h; simp [hT] at h
  · refine ⟨⟨(rfs.lookup "full_name").getD (Json.str "unknown/repo"),
      (fields.lookup "path").getD (Json.str ""),
      (fields.lookup "html_url").getD (Json.str ""),
      (let sv := (fields.lookup "score").getD Json.null
       if sv.truthy then sv else Json.num 0), none⟩,
      by simp [parseItem, Json.asObj, hR, hT, hvf, truthy_arr_nil,
        truthy_arr_cons],
      ⟨?_, ?_⟩, rfl, rfl, hscore _ rfl, ?_, fun _ _ _ => rfl, ?_⟩
    · intro h; simp [hR] at h
    · intro rfs2 h
      rw [hR] at h
      injection h with h
      injection h with h
      subst h
      rfl
    · intro h; simp [hT] at h
    · intro xfs l h
      rw [hT] at h
      injection h with h
      subst h
      simp [Json.truthy] at hvf
  · refine ⟨⟨(rfs.lookup "full_name").getD (Json.str "unknown/repo"),
      (fields.lookup "path").getD (Json.str ""),
      (fields.lookup "html_url").getD (Json.str ""),
      (let sv := (fields.lookup "score").getD Json.null
       if sv.truthy then sv else Json.num 0), xfs.lookup "fragment"⟩,
      by simp [parseItem, Json.asObj, hR, hT, truthy_arr_nil, truthy_arr_cons],
      ⟨?_, ?_⟩, rfl, rfl, hscore _ rfl, ?_, ?_, ?_⟩
    · intro h; simp [hR] at h
    · intro rfs2 h
      rw [hR] at h
      injection h with h
      injection h with h
      subst h
      rfl
    · intro h; simp [hT] at h
    · intro v h hf
      rw [hT] at h
      injection h with h
      subst h
      simp [Json.truthy] at hf
    · intro xfs2 l2 h
      rw [hT] at h
      injection h with h
      injection h with h
      injection h with h hl
      injection h with h
      subst h
      rfl


theorem c6_item_parsing_witness :
    ∃ res, parseItem (Json.obj
        [("repository", Json.obj [("full_name", Json.str "octo/repo")]),
         ("text_matches", Json.arr [Json.obj [("fragment", Json.str "frag")]])]) =
      some res ∧
      res.repository = Json.str "octo/repo" ∧
      res.snippet = some (Json.str "frag") := by
  obtain ⟨res, heq, ⟨hrep1, hrep2⟩, hpath, hurl, hsc, hsn1, hsn2, hsn3⟩ :=
    c6_item_parsing
      [("repository", Json.obj [("full_name", Json.str "octo/repo")]),
       ("text_matches", Json.arr [Json.obj [("fragment", Json.str "frag")]])]
      (Or.inr ⟨[("full_name", Json.str "octo/repo")], rfl⟩)
      (Or.inr (Or.inr ⟨[("fragment", Json.str "frag")], [], rfl⟩))
  exact ⟨res, heq, hrep2 _ rfl, hsn3 _ _ rfl⟩

/-- Helper: a first-attempt 200 response makes the retry primitive return
its parsed body after exactly one HTTP call and no sleeps. -/
theorem requestWithRetry_ok (env : Nat → HttpResponse) (now : Nat → Rat)
    (j : Json) (hs : (env 1).status = 200) (hj : (env 1).jsonBody = some j) :
    requestWithRetry env now = (.ok j, ⟨1, []⟩) := by
  show requestAttempts env now [1, 2, 3] 0 [] = _
  simp [requestAttempts, hs, hj]

/-- Helper: item parsing distributes over list append. -/
theorem parseItems_append {a b : List Json} {ra rb : List SearchResult}
    (ha : parseItems a = some ra) (hb : parseItems b = some rb) :
    parseItems (a ++ b) = some (ra ++ rb) := by
  induction a generalizing ra with
  | nil =>
    simp [parseItems] at ha
    subst ha
    simpa using hb
  | cons x xs ih =>
    cases hx : parseItem x with
    | none => simp [parseItems, hx] at ha
    | some r =>
      cases hxs : parseItems xs with
      | none => simp [parseItems, hx, hxs] at ha
      | some rs =>
        simp [parseItems, hx, hxs] at ha
        subst ha
        simp [parseItems, hx, ih hxs, hb]

/-- Helper: when every page in the list answers 200 on its first attempt
with an object payload whose `items` array parses, the page loop follows
the reference `specFetchPages`: it returns the accumulated parse of the
fetched pages' items and requests exactly the pages the reference lists,
one HTTP call per page and no sleeps. -/
theorem searchCodeLoop_spec (session : List (String × String)) (q : String)
    (perPage : Int) (extra : List (String × String))
    (env : Int → Nat → HttpResponse) (now : Int → Nat → Rat)
    (itemsOf : Int → List Json) :
    ∀ pl acc tr,
      (∀ p ∈ pl, (env p 1).status = 200 ∧
        (env p 1).jsonBody = some (Json.obj [("items", Json.arr (itemsOf p))])) →
      (∀ p ∈ pl, ∃ rs, parseItems (itemsOf p) = some rs) →
      ∃ rs, parseItems (specFetchPages itemsOf perPage pl).1 = some rs ∧
        searchCodeLoop session q perPage extra env now pl acc tr =
          (.ok (acc ++ rs),
            { requests := tr.requests ++
                (specFetchPages itemsOf perPage pl).2.map
                  (fun p => ⟨q, perPage, p, effectiveHeaders session extra⟩),
              httpCalls := tr.httpCalls +
                (specFetchPages itemsOf perPage pl).2.length,
              sleeps := tr.sleeps }) := by
  intro pl
  induction pl with
  | nil =>
    intro acc tr _ _
    exact ⟨[], rfl, by simp [searchCodeLoop, specFetchPages]⟩
  | cons p rest ih =>
    intro acc tr henv hparse
    obtain ⟨hs, hj⟩ := henv p (List.mem_cons_self p rest)
    obtain ⟨rsp, hrsp⟩ := hparse p (List.mem_cons_self p rest)
    have hreq := requestWithRetry_ok (env p) (now p) _ hs hj
    by_cases hlt : ((itemsOf p).length : Int) < perPage
    · refine ⟨rsp, by simp [specFetchPages, hlt, hrsp], ?_⟩
      simp [searchCodeLoop, hreq, Json.asObj, pyIter, pyLen, hrsp, hlt,
        specFetchPages]
    · obtain ⟨rs2, hrs2, hloop⟩ :=
        ih (acc ++ rsp)
          { requests := tr.requests ++
              [⟨q, perPage, p, effectiveHeaders session extra⟩],
            httpCalls := tr.httpCalls + 1,
            sleeps := tr.sleeps }
          (fun p2 hp2 => henv p2 (List.mem_cons_of_mem p hp2))
          (fun p2 hp2 => hparse p2 (List.mem_cons_of_mem p hp2))
      refine ⟨rsp ++ rs2, ?_, ?_⟩
      · simpa [specFetchPages, hlt] using parseItems_append hrsp hrs2
      · have hstep : searchCodeLoop session q perPage extra env now
            (p :: rest) acc tr =
            searchCodeLoop session q perPage extra env now rest (acc ++ rsp)
              { requests := tr.requests ++
                  [⟨q, perPage, p, effectiveHeaders session extra⟩],
                httpCalls := tr.httpCalls + 1,
                sleeps := tr.sleeps } := by
          simp [searchCodeLoop, hreq, Json.asObj, pyIter, pyLen, hrsp, hlt]
        rw [hstep, hloop]
        simp [specFetchPages, hlt, List.append_assoc, Nat.add_assoc,
          Nat.add_comm, Nat.add_left_comm]

/-- Helper: the pages `specFetchPages` requests are an initial segment of
the page list it is given. -/
theorem specFetchPages_take (itemsOf : Int → List Json) (perPage : Int) :
    ∀ pl : List Int, ∃ k, (specFetchPages itemsOf perPage pl).2 = pl.take k := by
  intro pl
  induction pl with
  | nil => exact ⟨0, rfl⟩
  | cons p rest ih =>
    by_cases h : ((itemsOf p).length : Int) < perPage
    · exact ⟨1, by simp [specFetchPages, h]⟩
    · obtain ⟨k, hk⟩ := ih
      exact ⟨k + 1, by simp [specFetchPages, h, hk]⟩

/-- Helper: every page `specFetchPages` requests other than the last one
was full (its item count reached `perPage`). -/
theorem specFetchPages_dropLast (itemsOf : Int → List Json) (perPage : Int) :
    ∀ pl, ∀ p ∈ (specFetchPages itemsOf perPage pl).2.dropLast,
      ¬(((itemsOf p).length : Int) < perPage) := by
  intro pl
  induction pl with
  | nil => intro p hp; simp [specFetchPages] at hp
  | cons q rest ih =>
    intro p hp
    by_cases h : ((itemsOf q).length : Int) < perPage
    · simp [specFetchPages, h] at hp
    · simp only [specFetchPages, if_neg h] at hp
      cases hrest : (specFetchPages itemsOf perPage rest).2 with
      | nil => rw [hrest] at hp; simp at hp
      | cons x xs =>
        rw [hrest] at hp
        rw [List.dropLast_cons₂] at hp
        rcases List.mem_cons.mp hp with hpq | hpmem
        · subst hpq; exact h
        · exact ih p (by rw [hrest]; exact hpmem)

/-- C3: for every `search_code` call over well-formed pages, pages are
fetched in ascending order `1..pages` (the requested pages are an initial
segment of that range), each page's parsed items are appended in
API-returned order (the result is the parse of the reference
`specFetchPages` accumulation), and a page with strictly fewer than
`per_page` items stops further fetching (every requested page except the
last was full); in particular, with `per_page = 30`, page 1 returning 30
items and page 2 returning 12, exactly 2 HTTP calls are made and 42
results are returned even when `pages = 5`. -/
theorem c3_pagination (token userAgent : String) (spec : QuerySpec)
    (perPage pages : Int) (textMatches : Bool)
    (env : Int → Nat → HttpResponse) (now : Int → Nat → Rat)
    (itemsOf : Int → List Json)
    (henv : ∀ p, (env p 1).status = 200 ∧
      (env p 1).jsonBody = some (Json.obj [("items", Json.arr (itemsOf p))]))
    (hparse : ∀ p, ∃ rs, parseItems (itemsOf p) = some rs) :
    (∃ rs,
      parseItems (specFetchPages itemsOf perPage (pythonRange 1 (pages + 1))).1 =
        some rs ∧
      (searchCode token userAgent spec perPage pages textMatches env now).1 =
        .ok rs ∧
      ((searchCode token userAgent spec perPage pages textMatches
          env now).2.requests.map (fun req => req.page) =
        (specFetchPages itemsOf perPage (pythonRange 1 (pages + 1))).2) ∧
      (searchCode token userAgent spec perPage pages textMatches
          env now).2.httpCalls =
        (specFetchPages itemsOf perPage (pythonRange 1 (pages + 1))).2.length) ∧
    (∃ k, (specFetchPages itemsOf perPage (pythonRange 1 (pages + 1))).2 =
      (pythonRange 1 (pages + 1)).take k) ∧
    (∀ p ∈ (specFetchPages itemsOf perPage (pythonRange 1 (pages + 1))).2.dropLast,
      ¬(((itemsOf p).length : Int) < perPage)) ∧
    ((searchCode "tok" "ua" ⟨"bug", []⟩ 30 5 true
        (fun p _ => ⟨200, [], "",
          some (Json.obj [("items",
            Json.arr (List.replicate (if p = 1 then 30 else 12)
              (Json.obj [])))])⟩)
        (fun _ _ => 0)).1 =
      .ok (List.replicate 42
        ⟨Json.str "unknown/repo", Json.str "", Json.str "", Json.num 0,
          none⟩) ∧
      (searchCode "tok" "ua" ⟨"bug", []⟩ 30 5 true
        (fun p _ => ⟨200, [], "",
          some (Json.obj [("items",
            Json.arr (List.replicate (if p = 1 then 30 else 12)
              (Json.obj [])))])⟩)
        (fun _ _ => 0)).2.httpCalls = 2 ∧
      (searchCode "tok" "ua" ⟨"bug", []⟩ 30 5 true
        (fun p _ => ⟨200, [], "",
          some (Json.obj [("items",
            Json.arr (List.replicate (if p = 1 then 30 else 12)
              (Json.obj [])))])⟩)
        (fun _ _ => 0)).2.requests.map (fun req => req.page) = [1, 2]) := by
  obtain ⟨rs, hrs, hloop⟩ := searchCodeLoop_spec
    (sessionHeaders token userAgent) spec.build perPage
    (if textMatches then [("Accept", ACCEPT_TEXT_MATCH)] else [])
    env now itemsOf (pythonRange 1 (pages + 1)) [] ⟨[], 0, []⟩
    (fun p _ => henv p) (fun p _ => hparse p)
  have hsc : searchCode token userAgent spec perPage pages textMatches
      env now =
      (.ok ([] ++ rs),
        { requests := [] ++
            (specFetchPages itemsOf perPage (pythonRange 1 (pages + 1))).2.map
              (fun p => ⟨spec.build, perPage, p,
                effectiveHeaders (sessionHeaders token userAgent)
                  (if textMatches then [("Accept", ACCEPT_TEXT_MATCH)]
                   else [])⟩),
          httpCalls := 0 +
            (specFetchPages itemsOf perPage (pythonRange 1 (pages + 1))).2.length,
          sleeps := [] }) := hloop
  refine ⟨⟨rs, hrs, ?_, ?_, ?_⟩, specFetchPages_take _ _ _,
    specFetchPages_dropLast _ _ _, rfl, rfl, rfl⟩
  · rw [hsc]; simp
  · rw [hsc]; simp [Function.comp_def]
  · rw [hsc]; simp

theorem c3_pagination_witness :
    ∃ rs,
      parseItems (specFetchPages (fun _ => List.replicate 12 (Json.obj []))
        30 (pythonRange 1 (2 + 1))).1 = some rs ∧
      (searchCode "tok" "ua" ⟨"q", []⟩ 30 2 true
        (fun _ _ => ⟨200, [], "",
          some (Json.obj [("items",
            Json.arr (List.replicate 12 (Json.obj [])))])⟩)
        (fun _ _ => 0)).1 = .ok rs ∧
      ((searchCode "tok" "ua" ⟨"q", []⟩ 30 2 true
        (fun _ _ => ⟨200, [], "",
          some (Json.obj [("items",
            Json.arr (List.replicate 12 (Json.obj [])))])⟩)
        (fun _ _ => 0)).2.requests.map (fun req => req.page) =
        (specFetchPages (fun _ => List.replicate 12 (Json.obj [])) 30
          (pythonRange 1 (2 + 1))).2) ∧
      (searchCode "tok" "ua" ⟨"q", []⟩ 30 2 true
        (fun _ _ => ⟨200, [], "",
          some (Json.obj [("items",
            Json.arr (List.replicate 12 (Json.obj [])))])⟩)
        (fun _ _ => 0)).2.httpCalls =
        (specFetchPages (fun _ => List.replicate 12 (Json.obj [])) 30
          (pythonRange 1 (2 + 1))).2.length :=
  (c3_pagination "tok" "ua" ⟨"q", []⟩ 30 2 true
    (fun _ _ => ⟨200, [], "",
      some (Json.obj [("items", Json.arr (List.replicate 12 (Json.obj [])))])⟩)
    (fun _ _ => 0) (fun _ => List.replicate 12 (Json.obj []))
    (fun _ => ⟨rfl, rfl⟩) (fun _ => ⟨_, rfl⟩)).1

/-- Helper: if every page before `page` succeeds with a full items array
and the request for `page` fails, the page loop propagates that error and
the trace grows by exactly the prefix pages and `page` (later pages are
never requested). -/
theorem searchCodeLoop_abort (session : List (String × String)) (q : String)
    (perPage : Int) (extra : List (String × String))
    (env : Int → Nat → HttpResponse) (now : Int → Nat → Rat)
    (itemsOf : Int → List Json) :
    ∀ pref page rest acc tr e rtr,
      (∀ p ∈ pref, (env p 1).status = 200 ∧
        (env p 1).jsonBody = some (Json.obj [("items", Json.arr (itemsOf p))]) ∧
        (∃ rs, parseItems (itemsOf p) = some rs) ∧
        ¬(((itemsOf p).length : Int) < perPage)) →
      requestWithRetry (env page) (now page) = (.error e, rtr) →
      ∃ tr2,
        searchCodeLoop session q perPage extra env now
          (pref ++ page :: rest) acc tr = (.error e, tr2) ∧
        tr2.requests.map (fun req => req.page) =
          tr.requests.map (fun req => req.page) ++ pref ++ [page] := by
  intro pref
  induction pref with
  | nil =>
    intro page rest acc tr e rtr _ hfail
    refine ⟨⟨tr.requests ++ [⟨q, perPage, page, effectiveHeaders session extra⟩],
      tr.httpCalls + rtr.calls, tr.sleeps ++ rtr.sleeps⟩, ?_, by simp⟩
    simp [searchCodeLoop, hfail]
  | cons p pref2 ih =>
    intro page rest acc tr e rtr hpref hfail
    obtain ⟨hs, hj, ⟨rsp, hrsp⟩, hfull⟩ := hpref p (List.mem_cons_self p pref2)
    have hreq := requestWithRetry_ok (env p) (now p) _ hs hj
    have hstep : searchCodeLoop session q perPage extra env now
        ((p :: pref2) ++ page :: rest) acc tr =
        searchCodeLoop session q perPage extra env now (pref2 ++ page :: rest)
          (acc ++ rsp)
          { requests := tr.requests ++
              [⟨q, perPage, p, effectiveHeaders session extra⟩],
            httpCalls := tr.httpCalls + 1,
            sleeps := tr.sleeps } := by
      simp [searchCodeLoop, hreq, Json.asObj, pyIter, pyLen, hrsp, hfull]
    obtain ⟨tr2, hl, hmap⟩ := ih page rest (acc ++ rsp)
      { requests := tr.requests ++
          [⟨q, perPage, p, effectiveHeaders session extra⟩],
        httpCalls := tr.httpCalls + 1,
        sleeps := tr.sleeps } e rtr
      (fun p2 hp2 => hpref p2 (List.mem_cons_of_mem p hp2)) hfail
    refine ⟨tr2, by rw [hstep]; exact hl, ?_⟩
    rw [hmap]
    simp

/-- C7: for every `search_code` call whose request for some page raises an
error after the earlier pages succeeded with full item arrays: the call
returns that error and no results at all — the `Except.error` return
carries no result list, so results parsed from pages already fetched are
not returned (the exception propagates out of `search_code` and the local
`results` list is discarded, the call fails atomically) — and the pages
requested are exactly the earlier pages plus the failing one: the
remaining pages of the query are not requested. -/
theorem c7_atomic_failure (token userAgent : String) (spec : QuerySpec)
    (perPage pages : Int) (textMatches : Bool)
    (env : Int → Nat → HttpResponse) (now : Int → Nat → Rat)
    (itemsOf : Int → List Json) (pref : List Int) (page : Int)
    (rest : List Int) (e : ReqError) (rtr : ReqTrace)
    (hsplit : pythonRange 1 (pages + 1) = pref ++ page :: rest)
    (hpref : ∀ p ∈ pref, (env p 1).status = 200 ∧
      (env p 1).jsonBody = some (Json.obj [("items", Json.arr (itemsOf p))]) ∧
      (∃ rs, parseItems (itemsOf p) = some rs) ∧
      ¬(((itemsOf p).length : Int) < perPage))
    (hfail : requestWithRetry (env page) (now page) = (.error e, rtr)) :
    ∃ tr2,
      searchCode token userAgent spec perPage pages textMatches env now =
        (.error e, tr2) ∧
      tr2.requests.map (fun req => req.page) = pref ++ [page] := by
  obtain ⟨tr2, hl, hmap⟩ := searchCodeLoop_abort
    (sessionHeaders token userAgent) spec.build perPage
    (if textMatches then [("Accept", ACCEPT_TEXT_MATCH)] else [])
    env now itemsOf pref page rest [] ⟨[], 0, []⟩ e rtr hpref hfail
  refine ⟨tr2, ?_, by simpa using hmap⟩
  show searchCodeLoop (sessionHeaders token userAgent) spec.build perPage
    (if textMatches then [("Accept", ACCEPT_TEXT_MATCH)] else [])
    env now (pythonRange 1 (pages + 1)) [] ⟨[], 0, []⟩ = (.error e, tr2)
  rw [hsplit]
  exact hl

theorem c7_atomic_failure_witness :
    ∃ tr2,
      searchCode "tok" "ua" ⟨"q", []⟩ 30 5 true
          (fun p _ => if p = 1
            then ⟨200, [], "", some (Json.obj [("items",
              Json.arr (List.replicate 30 (Json.obj [])))])⟩
            else ⟨500, [], "boom", none⟩)
          (fun _ _ => 0) =
        (.error (.apiError 500 "boom"), tr2) ∧
      tr2.requests.map (fun req => req.page) = [1] ++ [2] :=
  c7_atomic_failure "tok" "ua" ⟨"q", []⟩ 30 5 true
    (fun p _ => if p = 1
      then ⟨200, [], "", some (Json.obj [("items",
        Json.arr (List.replicate 30 (Json.obj [])))])⟩
      else ⟨500, [], "boom", none⟩)
    (fun _ _ => 0)
    (fun p => if p = 1 then List.replicate 30 (Json.obj []) else [])
    [1] 2 [3, 4, 5] (.apiError 500 "boom") ⟨1, []⟩ rfl
    (by
      intro p hp
      simp at hp
      subst hp
      exact ⟨rfl, rfl, ⟨_, rfl⟩, by decide⟩)
    rfl

/-- C10: for every `QuerySpec` and every `per_page`, calling `search_code`
with `pages < 1` issues no HTTP requests at all and returns the empty list,
rather than raising an error about the out-of-range argument. -/
theorem c10_nonpositive_pages (token userAgent : String) (spec : QuerySpec)
    (perPage pages : Int) (textMatches : Bool)
    (env : Int → Nat → HttpResponse) (now : Int → Nat → Rat)
    (h : pages < 1) :
    searchCode token userAgent spec perPage pages textMatches env now =
      (.ok [], ⟨[], 0, []⟩) := by
  have h0 : pages.toNat = 0 := by omega
  simp [searchCode, pythonRange, h0, searchCodeLoop]

theorem c10_nonpositive_pages_witness :
    (0 : Int) < 1 ∧
    searchCode "tok" "ua" ⟨"q", []⟩ 30 0 true
      (fun _ _ => ⟨200, [], "", some (Json.obj [])⟩) (fun _ _ => 0) =
      (.ok [], ⟨[], 0, []⟩) :=
  ⟨by decide,
    c10_nonpositive_pages "tok" "ua" ⟨"q", []⟩ 30 0 true _ _ (by decide)⟩

end BugZero
